import Mathlib

/-!
# Pandemica: verification of the epidemic simulation core

A shallow embedding of the Go packages `internal/sim` (simulation state
machine, agent speed modifier) and `cmd/server` (control hub).  Go `float64`
values are modelled as rationals (all properties at stake are exact
identities of the program's arithmetic expressions, never rounding
behaviour); Go `int` is modelled as `Int` with Go's truncated division.
The random source `rng.Float64()` is modelled as an explicit stream
`Nat → ℚ` consumed in call order.
-/

namespace Pandemica

/-- `defaultBaseDeathRate = 0.01` from `internal/sim`. -/
def defaultBaseDeathRate : ℚ := 1/100

/-- The simulation state: the fields of the Go `Simulation` struct
(the mutex and the seeded `rng` handle are concurrency / IO artefacts;
the random stream is passed explicitly to `stepEpidemic`). -/
structure Simulation where
  transmissionMod             : ℚ
  modifierSet                 : Bool
  baseTransmission            : ℚ
  baseDeathRate               : ℚ
  hospitalCapacity            : ℤ
  deathRateOverloadMultiplier : ℚ
  currentInfected             : ℤ
  lockdownEnabled             : Bool
deriving DecidableEq, Repr

/-- `Snapshot`: a read-only copy of the simulation state plus derived values. -/
structure Snapshot where
  TransmissionModifier        : ℚ
  InfectionProbability        : ℚ
  LockdownEnabled             : Bool
  HospitalCapacity            : ℤ
  DeathRateOverloadMultiplier : ℚ
  CurrentInfected             : ℤ
  EffectiveDeathProbability   : ℚ
  Overloaded                  : Bool
deriving DecidableEq, Repr

/-- `SetCurrentSpeedModifier` (agent.go): clamps below zero to zero and stores
the value in the package-global `CurrentSpeedModifier`.  Modelled as returning
the new value of the global. -/
def SetCurrentSpeedModifier (modifier : ℚ) : ℚ :=
  if modifier < 0 then 0 else modifier

/-- `New(baseTransmission)`: substitutes 0.25 for a non-positive argument,
resets the package-global speed modifier to 1.0 as a side effect, and returns
the freshly initialised state.  The global is modelled as explicit state:
`speedBefore` is its value prior to the call and the second component of the
result its value after (the Go code ignores the prior value). -/
def New (baseTransmission : ℚ) (_speedBefore : ℚ) : Simulation × ℚ :=
  let b := if baseTransmission ≤ 0 then 1/4 else baseTransmission
  ({ transmissionMod             := 1
     modifierSet                 := false
     baseTransmission            := b
     baseDeathRate               := defaultBaseDeathRate
     hospitalCapacity            := 50
     deathRateOverloadMultiplier := 2
     currentInfected             := 10
     lockdownEnabled             := false },
   SetCurrentSpeedModifier 1)

/-- `SetLockdown(enabled)`: records the flag and overwrites the global speed
modifier (0.1 when enabled, 1.0 when disabled).  Second component is the new
value of the global. -/
def SetLockdown (s : Simulation) (enabled : Bool) : Simulation × ℚ :=
  ({ s with lockdownEnabled := enabled },
   if enabled then SetCurrentSpeedModifier (1/10) else SetCurrentSpeedModifier 1)

/-- `UpdateTransmissionModifier(modifier)`: clamps to [0,1], stores it and
marks the modifier as explicitly set. -/
def UpdateTransmissionModifier (s : Simulation) (modifier : ℚ) : Simulation :=
  let m := if modifier < 0 then 0 else if modifier > 1 then 1 else modifier
  { s with transmissionMod := m, modifierSet := true }

/-- `currentTransmissionModifierLocked`: 1.0 until the modifier has been
explicitly set, otherwise the stored value. -/
def currentTransmissionModifierLocked (s : Simulation) : ℚ :=
  if !s.modifierSet then 1 else s.transmissionMod

/-- `CurrentTransmissionModifier()` public accessor. -/
def CurrentTransmissionModifier (s : Simulation) : ℚ :=
  currentTransmissionModifierLocked s

/-- `infectionProbabilityLocked`: `min(baseTransmission * modifier, 1.0)`. -/
def infectionProbabilityLocked (s : Simulation) : ℚ :=
  min (s.baseTransmission * currentTransmissionModifierLocked s) 1

/-- `InfectionProbability()` public accessor. -/
def InfectionProbability (s : Simulation) : ℚ :=
  infectionProbabilityLocked s

/-- `SetHospitalCapacity(capacity)`: clamps negative capacities to 0. -/
def SetHospitalCapacity (s : Simulation) (capacity : ℤ) : Simulation :=
  { s with hospitalCapacity := if capacity < 0 then 0 else capacity }

/-- `SetDeathRateOverloadMultiplier(multiplier)`: clamps values below 1 to 1. -/
def SetDeathRateOverloadMultiplier (s : Simulation) (multiplier : ℚ) : Simulation :=
  { s with deathRateOverloadMultiplier := if multiplier < 1 then 1 else multiplier }

/-- `deathProbabilityLocked`: overloaded iff `capacity > 0` and
`infected > capacity`; the base death rate, scaled by the overload multiplier
when overloaded, then clamped by `max(·,0)` and `min(·,1)`. -/
def deathProbabilityLocked (s : Simulation) : ℚ × Bool :=
  let overloaded : Bool :=
    decide (0 < s.hospitalCapacity) && decide (s.hospitalCapacity < s.currentInfected)
  let probability := s.baseDeathRate
  let probability := if overloaded then probability * s.deathRateOverloadMultiplier
                     else probability
  (min (max probability 0) 1, overloaded)

/-- `Overloaded()` public accessor. -/
def Overloaded (s : Simulation) : Bool :=
  (deathProbabilityLocked s).2

/-- `EffectiveDeathProbability()` public accessor. -/
def EffectiveDeathProbability (s : Simulation) : ℚ :=
  (deathProbabilityLocked s).1

/-- `Snapshot()`: atomic read of all fields and derived values. -/
def Simulation.toSnapshot (s : Simulation) : Snapshot :=
  { TransmissionModifier        := currentTransmissionModifierLocked s
    InfectionProbability        := infectionProbabilityLocked s
    LockdownEnabled             := s.lockdownEnabled
    HospitalCapacity            := s.hospitalCapacity
    DeathRateOverloadMultiplier := s.deathRateOverloadMultiplier
    CurrentInfected             := s.currentInfected
    EffectiveDeathProbability   := (deathProbabilityLocked s).1
    Overloaded                  := (deathProbabilityLocked s).2 }

/-- Number of successes among `n` Bernoulli trials drawn from the random
stream starting at index `start`, each succeeding when the drawn value is
strictly below `p` (one `rng.Float64()` call per trial, consumed in order). -/
def countSuccess (rand : ℕ → ℚ) (start n : ℕ) (p : ℚ) : ℕ :=
  ((List.range n).filter (fun i => rand (start + i) < p)).length

/-- `stepEpidemic()`: `interactions = 5 + currentInfected/3` (Go truncated
integer division) infection trials at the pre-tick infection probability,
successes added to `currentInfected`; then one death trial per individual of
the updated count at the death probability of the post-infection state;
deaths subtracted and the result floored at 0. -/
def stepEpidemic (s : Simulation) (rand : ℕ → ℚ) : Simulation :=
  let infectionProbability := infectionProbabilityLocked s
  let interactions := (5 + Int.tdiv s.currentInfected 3).toNat
  let newInfections := countSuccess rand 0 interactions infectionProbability
  let s1 := { s with currentInfected := s.currentInfected + (newInfections : ℤ) }
  let deathProbability := (deathProbabilityLocked s1).1
  let deaths := countSuccess rand interactions s1.currentInfected.toNat deathProbability
  let final := s1.currentInfected - (deaths : ℤ)
  { s1 with currentInfected := if final < 0 then 0 else final }

/-- The composite settings carried by a client `Update` message, as consumed
by `ApplyControlSettings` (fields as constructed by the hub handler and the
package tests). -/
structure ControlSettings where
  TransmissionModifier        : ℚ
  LockdownEnabled             : Bool
  HospitalCapacity            : ℤ
  DeathRateOverloadMultiplier : ℚ
deriving DecidableEq, Repr

/-- Modelled from the spec: the definition of `ApplyControlSettings` is not
among the provided source files (only its callers — the hub handler and the
package test — are).  Spec §4.1: "atomic composite update — applies
transmission modifier, lockdown, capacity, and overload multiplier together
(each individually clamped as above) and returns the resulting Snapshot";
the lockdown side effect updates the process-wide speed modifier, returned
here as the second component. -/
def ApplyControlSettings (s : Simulation) (c : ControlSettings) :
    Simulation × ℚ × Snapshot :=
  let s1 := UpdateTransmissionModifier s c.TransmissionModifier
  let s2 := SetLockdown s1 c.LockdownEnabled
  let s3 := SetHospitalCapacity s2.1 c.HospitalCapacity
  let s4 := SetDeathRateOverloadMultiplier s3 c.DeathRateOverloadMultiplier
  (s4, s2.2, s4.toSnapshot)

/-! ## Control hub (`cmd/server`) -/

/-- The nested `hospital` sub-message of a client `Update`
(`HospitalParameters` on the wire). -/
structure HospitalParameters where
  capacity                    : ℤ
  deathRateOverloadMultiplier : ℚ
deriving DecidableEq, Repr

/-- A well-formed client `Update` message; `hospital` is an optional nested
sub-message. -/
structure ControlUpdate where
  transmissionRate : ℚ
  lockdownEnabled  : Bool
  hospital         : Option HospitalParameters
deriving DecidableEq, Repr

/-- An inbound frame after the decode step: undecodable bytes, a decoded
`Update` variant, or a decoded message of any other variant. -/
inductive ClientMessage
  | malformed
  | update (u : ControlUpdate)
  | otherVariant
deriving DecidableEq, Repr

/-- A message sent back to the originating connection. -/
inductive ServerReply
  | errorReply (text : String)
  | ack (st : Snapshot)
deriving DecidableEq, Repr

/-- The observable outcome of the handler loop body for one inbound frame:
the simulation state and global speed modifier after handling, the replies
written to the sender, the snapshot broadcast to all clients (if any), and
whether the loop continues with the connection still registered. -/
structure HandleResult where
  sim       : Simulation
  speed     : ℚ
  toSender  : List ServerReply
  broadcast : Option Snapshot
  keepOpen  : Bool
deriving DecidableEq, Repr

/-- One iteration of the hub handler's receive loop (`handler` in
`cmd/server`): decode failure sends an error to the sender and continues;
an `Update` builds a `ControlSettings` whose hospital fields keep the Go
zero values (capacity 0, multiplier 0) when the hospital sub-message is
absent, applies it, acks the sender and broadcasts the snapshot; any other
variant sends an error to the sender and continues. -/
def handleInbound (s : Simulation) (speed : ℚ) (msg : ClientMessage) : HandleResult :=
  match msg with
  | .malformed =>
      { sim := s, speed := speed
        toSender := [.errorReply "invalid control payload"]
        broadcast := none, keepOpen := true }
  | .update u =>
      let settings : ControlSettings :=
        match u.hospital with
        | some h =>
            { TransmissionModifier := u.transmissionRate
              LockdownEnabled := u.lockdownEnabled
              HospitalCapacity := h.capacity
              DeathRateOverloadMultiplier := h.deathRateOverloadMultiplier }
        | none =>
            { TransmissionModifier := u.transmissionRate
              LockdownEnabled := u.lockdownEnabled
              HospitalCapacity := 0
              DeathRateOverloadMultiplier := 0 }
      let r := ApplyControlSettings s settings
      { sim := r.1, speed := r.2.1
        toSender := [.ack r.2.2]
        broadcast := some r.2.2, keepOpen := true }
  | .otherVariant =>
      { sim := s, speed := speed
        toSender := [.errorReply "unsupported control message type"]
        broadcast := none, keepOpen := true }

/-- The binary codec is an external collaborator; the encoded payload is
modelled by the snapshot it carries. -/
def encodeSnapshot (st : Snapshot) : Snapshot := st

/-- The write loop of `broadcastControl`: walks the registered connections
(identified by `Nat` handles), writing `payload` to each; a connection whose
write succeeds (`writeOk`) stays registered and receives the payload, a
connection whose write fails is closed and removed.  Returns
(still-registered, deliveries, closed). -/
def broadcastLoop (payload : Snapshot) (writeOk : ℕ → Bool) :
    List ℕ → List ℕ × List (ℕ × Snapshot) × List ℕ
  | [] => ([], [], [])
  | c :: rest =>
      let r := broadcastLoop payload writeOk rest
      if writeOk c then (c :: r.1, (c, payload) :: r.2.1, r.2.2)
      else (r.1, r.2.1, c :: r.2.2)

/-- `broadcastControl(state)`: encodes the snapshot once, then writes the
single encoded payload to every registered connection. -/
def broadcastControl (state : Snapshot) (clients : List ℕ) (writeOk : ℕ → Bool) :
    List ℕ × List (ℕ × Snapshot) × List ℕ :=
  let payload := encodeSnapshot state
  broadcastLoop payload writeOk clients

/-! ## Reachable simulation states -/

/-- States reachable from a fresh construction by any sequence of the public
mutating operations (the random stream of a tick is arbitrary). -/
inductive Reachable : Simulation → Prop
  | new (b g : ℚ) : Reachable (New b g).1
  | updateModifier (s : Simulation) (m : ℚ) :
      Reachable s → Reachable (UpdateTransmissionModifier s m)
  | lockdown (s : Simulation) (e : Bool) :
      Reachable s → Reachable (SetLockdown s e).1
  | capacity (s : Simulation) (c : ℤ) :
      Reachable s → Reachable (SetHospitalCapacity s c)
  | overloadMultiplier (s : Simulation) (m : ℚ) :
      Reachable s → Reachable (SetDeathRateOverloadMultiplier s m)
  | applySettings (s : Simulation) (c : ControlSettings) :
      Reachable s → Reachable (ApplyControlSettings s c).1
  | step (s : Simulation) (rand : ℕ → ℚ) :
      Reachable s → Reachable (stepEpidemic s rand)

/-- The inductive invariant maintained by every operation. -/
def Inv (s : Simulation) : Prop :=
  0 ≤ s.transmissionMod ∧ s.transmissionMod ≤ 1 ∧
  0 < s.baseTransmission ∧ s.baseDeathRate = defaultBaseDeathRate ∧
  1 ≤ s.deathRateOverloadMultiplier ∧
  0 ≤ s.hospitalCapacity ∧ 0 ≤ s.currentInfected

/-! ## Clamping helpers -/

lemma clamp01_eq (m : ℚ) : (if m < 0 then 0 else if m > 1 then 1 else m) = min (max m 0) 1 := by
  rcases lt_or_le m 0 with h | h
  · rw [if_pos h, max_eq_right h.le]
    norm_num
  · rw [if_neg (not_lt.mpr h), max_eq_left h]
    rcases le_or_lt m 1 with h2 | h2
    · rw [if_neg (not_lt.mpr h2), min_eq_left h2]
    · rw [if_pos h2, min_eq_right h2.le]

lemma int_clamp_eq (c : ℤ) : (if c < 0 then 0 else c) = max c 0 := by
  rcases lt_or_le c 0 with h | h
  · rw [if_pos h, max_eq_right h.le]
  · rw [if_neg (not_lt.mpr h), max_eq_left h]

lemma mult_clamp_eq (m : ℚ) : (if m < 1 then 1 else m) = max m 1 := by
  rcases lt_or_le m 1 with h | h
  · rw [if_pos h, max_eq_right h.le]
  · rw [if_neg (not_lt.mpr h), max_eq_left h]

/-! ## Claim theorems -/

/-- C2: `Overloaded()` holds iff `hospitalCapacity > 0` and
`currentInfected > hospitalCapacity`; `EffectiveDeathProbability()` is
`baseDeathRate × deathRateOverloadMultiplier` clamped to [0,1] when that
condition holds and `baseDeathRate` otherwise; with capacity 0 it always
returns `baseDeathRate` and `Overloaded()` is always false. -/
theorem overloaded_and_death_probability (s : Simulation)
    (h0 : 0 ≤ s.baseDeathRate) (h1 : s.baseDeathRate ≤ 1) :
    (Overloaded s = true ↔
      0 < s.hospitalCapacity ∧ s.hospitalCapacity < s.currentInfected) ∧
    EffectiveDeathProbability s =
      (if 0 < s.hospitalCapacity ∧ s.hospitalCapacity < s.currentInfected
       then min (max (s.baseDeathRate * s.deathRateOverloadMultiplier) 0) 1
       else s.baseDeathRate) ∧
    (s.hospitalCapacity = 0 →
      Overloaded s = false ∧ EffectiveDeathProbability s = s.baseDeathRate) := by
  have hbase : min (max s.baseDeathRate 0) 1 = s.baseDeathRate := by
    rw [max_eq_left h0, min_eq_left h1]
  by_cases h : 0 < s.hospitalCapacity ∧ s.hospitalCapacity < s.currentInfected
  · refine ⟨?_, ?_, ?_⟩
    · simp [Overloaded, deathProbabilityLocked, h.1, h.2]
    · simp [EffectiveDeathProbability, deathProbabilityLocked, h.1, h.2, if_pos h]
    · intro hc
      rw [hc] at h
      exact absurd h.1 (lt_irrefl 0)
  · refine ⟨?_, ?_, ?_⟩
    · simp only [Overloaded, deathProbabilityLocked, Bool.and_eq_true, decide_eq_true_iff]
    · rw [if_neg h]
      simp only [EffectiveDeathProbability, deathProbabilityLocked]
      rcases Decidable.not_and_iff_or_not.mp h with hn | hn
      · simp [hn, hbase]
      · simp [hn, hbase, Bool.and_eq_false_iff]
    · intro hc
      constructor
      · simp [Overloaded, deathProbabilityLocked, hc]
      · simp [EffectiveDeathProbability, deathProbabilityLocked, hc, hbase]

/-- C2 witness: the theorem instantiated at the freshly constructed state
(base death rate 0.01, capacity 50, infected 10). -/
theorem overloaded_and_death_probability_witness :
    (0 ≤ ((New 1 0).1).baseDeathRate ∧ ((New 1 0).1).baseDeathRate ≤ 1) ∧
    ((Overloaded (New 1 0).1 = true ↔
        0 < ((New 1 0).1).hospitalCapacity ∧
          ((New 1 0).1).hospitalCapacity < ((New 1 0).1).currentInfected) ∧
      EffectiveDeathProbability (New 1 0).1 =
        (if 0 < ((New 1 0).1).hospitalCapacity ∧
              ((New 1 0).1).hospitalCapacity < ((New 1 0).1).currentInfected
         then min (max (((New 1 0).1).baseDeathRate *
                  ((New 1 0).1).deathRateOverloadMultiplier) 0) 1
         else ((New 1 0).1).baseDeathRate) ∧
      (((New 1 0).1).hospitalCapacity = 0 →
        Overloaded (New 1 0).1 = false ∧
          EffectiveDeathProbability (New 1 0).1 = ((New 1 0).1).baseDeathRate)) :=
  ⟨⟨by norm_num [New, defaultBaseDeathRate], by norm_num [New, defaultBaseDeathRate]⟩,
   overloaded_and_death_probability (New 1 0).1
     (by norm_num [New, defaultBaseDeathRate])
     (by norm_num [New, defaultBaseDeathRate])⟩

/-- C3: `UpdateTransmissionModifier(m)` stores `m` clamped to [0,1] and marks
the modifier as set; `CurrentTransmissionModifier()` then returns the clamped
value (0 included); `InfectionProbability()` is
`min(baseTransmissionRate × effectiveModifier, 1)` where the effective
modifier is the stored value when set and 1.0 when never set. -/
theorem update_transmission_modifier_spec (s : Simulation) (m : ℚ) :
    (UpdateTransmissionModifier s m).transmissionMod = min (max m 0) 1 ∧
    (UpdateTransmissionModifier s m).modifierSet = true ∧
    CurrentTransmissionModifier (UpdateTransmissionModifier s m) = min (max m 0) 1 ∧
    InfectionProbability (UpdateTransmissionModifier s m) =
      min (s.baseTransmission * min (max m 0) 1) 1 ∧
    CurrentTransmissionModifier (UpdateTransmissionModifier s 0) = 0 ∧
    (∀ t : Simulation,
      CurrentTransmissionModifier t =
        (if t.modifierSet = true then t.transmissionMod else 1) ∧
      InfectionProbability t =
        min (t.baseTransmission *
          (if t.modifierSet = true then t.transmissionMod else 1)) 1) := by
  refine ⟨?_, rfl, ?_, ?_, ?_, ?_⟩
  · simp [UpdateTransmissionModifier, clamp01_eq]
  · simp [CurrentTransmissionModifier, currentTransmissionModifierLocked,
      UpdateTransmissionModifier, clamp01_eq]
  · simp [InfectionProbability, infectionProbabilityLocked,
      currentTransmissionModifierLocked, UpdateTransmissionModifier, clamp01_eq]
  · norm_num [CurrentTransmissionModifier, currentTransmissionModifierLocked,
      UpdateTransmissionModifier]
  · intro t
    constructor
    · simp [CurrentTransmissionModifier, currentTransmissionModifierLocked]
      cases t.modifierSet <;> simp
    · simp [InfectionProbability, infectionProbabilityLocked,
        currentTransmissionModifierLocked]
      cases t.modifierSet <;> simp

/-- C5 counterexample: with constructor argument 2 the stored base
transmission rate is 2, which does not lie in (0,1], and the initial
`InfectionProbability()` is 1, not the stored base rate. -/
theorem new_base_rate_counterexample :
    ((New 2 1).1).baseTransmission = 2 ∧
    ¬ ((New 2 1).1).baseTransmission ≤ 1 ∧
    InfectionProbability (New 2 1).1 = 1 ∧
    InfectionProbability (New 2 1).1 ≠ ((New 2 1).1).baseTransmission := by
  norm_num [New, InfectionProbability, infectionProbabilityLocked,
    currentTransmissionModifierLocked]

/-- C5 amended: the stored base rate is positive — 0.25 when the argument is
non-positive, the argument itself otherwise, with no upper clamp — and the
initial `InfectionProbability()` (modifier unset) is the stored base rate
capped at 1 (hence 0.25 for every non-positive argument). -/
theorem new_base_rate_amended (b g : ℚ) :
    0 < ((New b g).1).baseTransmission ∧
    ((New b g).1).baseTransmission = (if b ≤ 0 then 1/4 else b) ∧
    InfectionProbability (New b g).1 = min ((New b g).1).baseTransmission 1 ∧
    InfectionProbability (New b g).1 =
      (if b ≤ 0 then 1/4 else min b 1) := by
  refine ⟨?_, rfl, ?_, ?_⟩
  · simp only [New]
    split_ifs with h
    · norm_num
    · exact lt_of_not_le (fun hle => h (hle.trans (by norm_num)))
  · simp [New, InfectionProbability, infectionProbabilityLocked,
      currentTransmissionModifierLocked, mul_one]
  · have hrw : InfectionProbability (New b g).1 = min (if b ≤ 0 then (1/4:ℚ) else b) 1 := by
      simp [New, InfectionProbability, infectionProbabilityLocked,
        currentTransmissionModifierLocked, mul_one]
    rw [hrw]
    split_ifs with h
    · rw [min_eq_left (by norm_num : (1/4:ℚ) ≤ 1)]
    · rfl

/-- C6: control parameters are clamped, never rejected: the snapshot
returned by `ApplyControlSettings` echoes the capacity clamped at 0 from
below and the overload multiplier clamped at 1 from below; in particular
capacity −5 yields 0 and multiplier 0.5 yields 1; and the underlying
setters perform exactly those clamps. -/
theorem control_settings_clamped (s : Simulation) (c : ControlSettings) :
    ((ApplyControlSettings s c).2.2).HospitalCapacity = max c.HospitalCapacity 0 ∧
    ((ApplyControlSettings s c).2.2).DeathRateOverloadMultiplier =
      max c.DeathRateOverloadMultiplier 1 ∧
    (∀ (t : Simulation) (cap : ℤ),
      (SetHospitalCapacity t cap).hospitalCapacity = max cap 0) ∧
    (∀ (t : Simulation) (m : ℚ),
      (SetDeathRateOverloadMultiplier t m).deathRateOverloadMultiplier = max m 1) ∧
    ((ApplyControlSettings s { c with HospitalCapacity := -5 }).2.2).HospitalCapacity
      = 0 ∧
    ((ApplyControlSettings s
        { c with DeathRateOverloadMultiplier := 1/2 }).2.2).DeathRateOverloadMultiplier
      = 1 := by
  refine ⟨?_, ?_, ?_, ?_, ?_, ?_⟩
  · simp [ApplyControlSettings, Simulation.toSnapshot, SetDeathRateOverloadMultiplier,
      SetHospitalCapacity, int_clamp_eq]
  · simp [ApplyControlSettings, Simulation.toSnapshot, SetDeathRateOverloadMultiplier,
      SetHospitalCapacity, mult_clamp_eq]
  · intro t cap
    simp [SetHospitalCapacity, int_clamp_eq]
  · intro t m
    simp [SetDeathRateOverloadMultiplier, mult_clamp_eq]
  · norm_num [ApplyControlSettings, Simulation.toSnapshot, SetDeathRateOverloadMultiplier,
      SetHospitalCapacity]
  · norm_num [ApplyControlSettings, Simulation.toSnapshot, SetDeathRateOverloadMultiplier,
      SetHospitalCapacity]

/-- C8: on an undecodable inbound frame the handler leaves the simulation
state and the global speed modifier unchanged, replies to the sender with
exactly one error notification, broadcasts nothing to other clients, and
keeps the connection open and registered. -/
theorem malformed_input_isolated (s : Simulation) (g : ℚ) :
    (handleInbound s g .malformed).sim = s ∧
    (handleInbound s g .malformed).speed = g ∧
    (handleInbound s g .malformed).toSender =
      [.errorReply "invalid control payload"] ∧
    (handleInbound s g .malformed).broadcast = none ∧
    (handleInbound s g .malformed).keepOpen = true :=
  ⟨rfl, rfl, rfl, rfl, rfl⟩

/-- C9: a broadcast encodes the snapshot once and attempts a write on every
registered connection; the connections that remain registered are exactly
those whose write succeeded, each of them receives the single encoded
payload, and exactly the failing connections are closed — one failure never
affects delivery to or retention of the others. -/
theorem broadcast_partitions_clients (st : Snapshot) (clients : List ℕ)
    (ok : ℕ → Bool) :
    (broadcastControl st clients ok).1 = clients.filter (fun c => ok c) ∧
    (broadcastControl st clients ok).2.1 =
      (clients.filter (fun c => ok c)).map (fun c => (c, encodeSnapshot st)) ∧
    (broadcastControl st clients ok).2.2 = clients.filter (fun c => !ok c) := by
  induction clients with
  | nil => exact ⟨rfl, rfl, rfl⟩
  | cons c rest ih =>
      simp only [broadcastControl, broadcastLoop] at ih ⊢
      by_cases h : ok c
      · simp [h, ih.1, ih.2.1, ih.2.2]
      · simp [h, ih.1, ih.2.1, ih.2.2]

/-- C10: constructing a simulation resets the package-global speed modifier
to exactly 1.0, whatever its prior value (in particular a lockdown-induced
0.1 set beforehand is erased). -/
theorem new_resets_speed_modifier (b g : ℚ) :
    (New b g).2 = 1 ∧ (New b (1/10)).2 = 1 := by
  norm_num [New, SetCurrentSpeedModifier]

/-- C1: one tick performs exactly `5 + currentInfected/3` (truncated integer
division on the pre-tick count) infection trials at the pre-tick
`InfectionProbability()`, adds the successes, then one death trial per
individual of the post-infection count at the death probability computed
from the post-infection state, subtracts the successes and floors at 0; all
other fields are untouched.  The random stream is consumed in call order:
the infection trials read indices `0..interactions-1`, the death trials the
following indices. -/
theorem step_epidemic_tick_semantics (s : Simulation) (rand : ℕ → ℚ) :
    stepEpidemic s rand =
      (let interactions := (5 + Int.tdiv s.currentInfected 3).toNat
       let newInfections := countSuccess rand 0 interactions (InfectionProbability s)
       let postInfection : Simulation :=
         { s with currentInfected := s.currentInfected + (newInfections : ℤ) }
       let deaths := countSuccess rand interactions postInfection.currentInfected.toNat
           (EffectiveDeathProbability postInfection)
       { postInfection with
           currentInfected := max (postInfection.currentInfected - (deaths : ℤ)) 0 }) := by
  simp only [stepEpidemic, InfectionProbability, EffectiveDeathProbability, int_clamp_eq]

/-- C4: when a well-formed `Update` omits the hospital sub-message, the
handler applies the zero-valued hospital defaults (capacity 0, multiplier 0
clamped to 1), so — whatever the previously configured values — the
resulting state and the broadcast / acked snapshot carry hospital capacity 0
and overload multiplier 1. -/
theorem omitted_hospital_resets_settings (s : Simulation) (g rate : ℚ) (ld : Bool) :
    ((handleInbound s g (.update ⟨rate, ld, none⟩)).sim).hospitalCapacity = 0 ∧
    ((handleInbound s g (.update ⟨rate, ld, none⟩)).sim).deathRateOverloadMultiplier = 1 ∧
    (handleInbound s g (.update ⟨rate, ld, none⟩)).broadcast =
      some (((handleInbound s g (.update ⟨rate, ld, none⟩)).sim).toSnapshot) ∧
    (handleInbound s g (.update ⟨rate, ld, none⟩)).toSender =
      [.ack (((handleInbound s g (.update ⟨rate, ld, none⟩)).sim).toSnapshot)] ∧
    (((handleInbound s g (.update ⟨rate, ld, none⟩)).sim).toSnapshot).HospitalCapacity
      = 0 ∧
    (((handleInbound s g (.update ⟨rate, ld, none⟩)).sim).toSnapshot).DeathRateOverloadMultiplier
      = 1 := by
  refine ⟨?_, ?_, rfl, rfl, ?_, ?_⟩ <;>
    norm_num [handleInbound, ApplyControlSettings, SetDeathRateOverloadMultiplier,
      SetHospitalCapacity, SetLockdown, UpdateTransmissionModifier, Simulation.toSnapshot]

/-! ## The inductive invariant (C7) -/

lemma inv_new (b g : ℚ) : Inv (New b g).1 := by
  have hb : 0 < (if b ≤ 0 then (1/4:ℚ) else b) := by
    split_ifs with h
    · norm_num
    · exact lt_of_not_le h
  exact ⟨by norm_num [New], by norm_num [New], hb, rfl,
    by norm_num [New], by norm_num [New], by norm_num [New]⟩

lemma inv_update (s : Simulation) (m : ℚ) (h : Inv s) :
    Inv (UpdateTransmissionModifier s m) := by
  obtain ⟨-, -, h3, h4, h5, h6, h7⟩ := h
  have hmod : (UpdateTransmissionModifier s m).transmissionMod = min (max m 0) 1 := by
    simp [UpdateTransmissionModifier, clamp01_eq]
  refine ⟨?_, ?_, h3, h4, h5, h6, h7⟩
  · rw [hmod]
    exact le_min (le_max_right m 0) zero_le_one
  · rw [hmod]
    exact min_le_right _ _

lemma inv_lockdown (s : Simulation) (e : Bool) (h : Inv s) :
    Inv (SetLockdown s e).1 := h

lemma inv_capacity (s : Simulation) (c : ℤ) (h : Inv s) :
    Inv (SetHospitalCapacity s c) := by
  obtain ⟨h1, h2, h3, h4, h5, -, h7⟩ := h
  refine ⟨h1, h2, h3, h4, h5, ?_, h7⟩
  simp only [SetHospitalCapacity]
  split_ifs with hc
  · exact le_refl 0
  · exact le_of_not_lt hc

lemma inv_mult (s : Simulation) (m : ℚ) (h : Inv s) :
    Inv (SetDeathRateOverloadMultiplier s m) := by
  obtain ⟨h1, h2, h3, h4, -, h6, h7⟩ := h
  refine ⟨h1, h2, h3, h4, ?_, h6, h7⟩
  simp only [SetDeathRateOverloadMultiplier]
  split_ifs with hm
  · exact le_refl 1
  · exact le_of_not_lt hm

lemma inv_apply (s : Simulation) (c : ControlSettings) (h : Inv s) :
    Inv (ApplyControlSettings s c).1 :=
  inv_mult _ _ (inv_capacity _ _
    (inv_lockdown _ c.LockdownEnabled (inv_update s c.TransmissionModifier h)))

lemma inv_step (s : Simulation) (rand : ℕ → ℚ) (h : Inv s) :
    Inv (stepEpidemic s rand) := by
  obtain ⟨h1, h2, h3, h4, h5, h6, -⟩ := h
  refine ⟨h1, h2, h3, h4, h5, h6, ?_⟩
  simp only [stepEpidemic]
  split_ifs with hf
  · exact le_refl 0
  · exact le_of_not_lt hf

lemma reachable_inv {s : Simulation} (h : Reachable s) : Inv s := by
  induction h with
  | new b g => exact inv_new b g
  | updateModifier s m _ ih => exact inv_update s m ih
  | lockdown s e _ ih => exact inv_lockdown s e ih
  | capacity s c _ ih => exact inv_capacity s c ih
  | overloadMultiplier s m _ ih => exact inv_mult s m ih
  | applySettings s c _ ih => exact inv_apply s c ih
  | step s rand _ ih => exact inv_step s rand ih

/-- C7: every state reachable from a fresh construction by any sequence of
the public mutating operations keeps the effective transmission modifier in
[0,1], the overload multiplier at least 1, the hospital capacity and
infected count non-negative, and both derived probabilities in [0,1]. -/
theorem reachable_state_invariant (s : Simulation) (h : Reachable s) :
    0 ≤ CurrentTransmissionModifier s ∧ CurrentTransmissionModifier s ≤ 1 ∧
    1 ≤ s.deathRateOverloadMultiplier ∧
    0 ≤ s.hospitalCapacity ∧ 0 ≤ s.currentInfected ∧
    0 ≤ InfectionProbability s ∧ InfectionProbability s ≤ 1 ∧
    0 ≤ EffectiveDeathProbability s ∧ EffectiveDeathProbability s ≤ 1 := by
  obtain ⟨h1, h2, h3, -, h5, h6, h7⟩ := reachable_inv h
  have hmod0 : 0 ≤ currentTransmissionModifierLocked s := by
    unfold currentTransmissionModifierLocked
    cases hb : s.modifierSet <;> simp [h1]
  have hmod1 : currentTransmissionModifierLocked s ≤ 1 := by
    unfold currentTransmissionModifierLocked
    cases hb : s.modifierSet <;> simp [h2]
  refine ⟨hmod0, hmod1, h5, h6, h7, ?_, ?_, ?_, ?_⟩
  · simp only [InfectionProbability, infectionProbabilityLocked]
    exact le_min (mul_nonneg h3.le hmod0) zero_le_one
  · simp only [InfectionProbability, infectionProbabilityLocked]
    exact min_le_right _ _
  · simp only [EffectiveDeathProbability, deathProbabilityLocked]
    exact le_min (le_max_right _ _) zero_le_one
  · simp only [EffectiveDeathProbability, deathProbabilityLocked]
    exact min_le_right _ _

/-- C7 witness: the invariant instantiated at the freshly constructed state
`New(1/2)`, whose reachability is the base constructor. -/
theorem reachable_state_invariant_witness :
    Reachable (New (1/2) 1).1 ∧
    (0 ≤ CurrentTransmissionModifier (New (1/2) 1).1 ∧
      CurrentTransmissionModifier (New (1/2) 1).1 ≤ 1 ∧
      1 ≤ ((New (1/2) 1).1).deathRateOverloadMultiplier ∧
      0 ≤ ((New (1/2) 1).1).hospitalCapacity ∧
      0 ≤ ((New (1/2) 1).1).currentInfected ∧
      0 ≤ InfectionProbability (New (1/2) 1).1 ∧
      InfectionProbability (New (1/2) 1).1 ≤ 1 ∧
      0 ≤ EffectiveDeathProbability (New (1/2) 1).1 ∧
      EffectiveDeathProbability (New (1/2) 1).1 ≤ 1) :=
  ⟨Reachable.new (1/2) 1,
   reachable_state_invariant (New (1/2) 1).1 (Reachable.new (1/2) 1)⟩

end Pandemica
